import Mathlib

/-!
Shallow embedding of `src/hyprland-scripts/workspace-manager.py`, a thin CLI
around the external `hyprctl` utility.  Python values decoded from JSON are
modelled by `JsonValue`; the outcome of the external query subprocess (exit
status plus the JSON-decoding of its stdout) is modelled by `QueryOutcome`;
printing is modelled by accumulating the list of printed lines; an uncaught
Python exception is modelled by the `exn` constructor of `PyResult`.
-/

namespace WorkspaceManager

/-- Python values as produced by `json.loads`: `None`, booleans, numbers
(restricted to integers, the only numbers the script's data model uses),
strings, lists and string-keyed dicts (kept as association lists in
insertion order, later bindings shadowing earlier ones as in `json.loads`). -/
inductive JsonValue where
  | null
  | bool (b : Bool)
  | num (n : Int)
  | str (s : String)
  | arr (elems : List JsonValue)
  | obj (fields : List (String × JsonValue))

/-- Python truthiness (`bool(v)`) of a decoded JSON value, as used by
`if not workspaces:` on line 32 of the script. -/
def pyFalsy : JsonValue → Bool
  | .null => true
  | .bool b => !b
  | .num n => n == 0
  | .str s => s.isEmpty
  | .arr xs => xs.isEmpty
  | .obj fs => fs.isEmpty

/-- Lookup in a dict built by `json.loads`: with duplicate keys the last
binding wins, matching Python dict construction from repeated keys. -/
def lookupLast (fs : List (String × JsonValue)) (k : String) : Option JsonValue :=
  fs.foldl (fun acc p => if p.1 = k then some p.2 else acc) none

/-- Python subscription `v[k]` with a string key, as in `ws['id']` and
`ws['windows']` (lines 38): succeeds only on a dict containing the key;
otherwise it raises `KeyError` or `TypeError`. -/
def pySubscript (v : JsonValue) (k : String) : Except String JsonValue :=
  match v with
  | .obj fs =>
    match lookupLast fs k with
    | some x => .ok x
    | none => .error ("KeyError: " ++ k)
  | .str _ => .error "TypeError: string indices must be integers"
  | .arr _ => .error "TypeError: list indices must be integers or slices, not str"
  | .null => .error "TypeError: NoneType object is not subscriptable"
  | .bool _ => .error "TypeError: bool object is not subscriptable"
  | .num _ => .error "TypeError: int object is not subscriptable"

/-- Python `v.get(k, dflt)` as in `ws.get('name', 'Unnamed')` (line 38):
defined on dicts; any other receiver raises `AttributeError`. -/
def pyGetMethod (v : JsonValue) (k : String) (dflt : JsonValue) : Except String JsonValue :=
  match v with
  | .obj fs => .ok ((lookupLast fs k).getD dflt)
  | _ => .error "AttributeError: object has no attribute get"

/-- The keys of a dict in first-insertion order, without duplicates, as
Python dict iteration yields them. -/
def dictKeys (fs : List (String × JsonValue)) : List String :=
  fs.foldl (fun acc p => if acc.contains p.1 then acc else acc ++ [p.1]) []

/-- Python iteration `for ws in workspaces:` (line 37): lists yield their
elements, dicts their keys, strings their characters; other values raise
`TypeError`. -/
def pyIter : JsonValue → Except String (List JsonValue)
  | .arr xs => .ok xs
  | .obj fs => .ok ((dictKeys fs).map JsonValue.str)
  | .str s => .ok (s.data.map (fun c => JsonValue.str (String.mk [c])))
  | .null => .error "TypeError: NoneType object is not iterable"
  | .bool _ => .error "TypeError: bool object is not iterable"
  | .num _ => .error "TypeError: int object is not iterable"

mutual

/-- Python `repr` of a decoded JSON value (string quoting without escape
sequences, which the script never exercises). -/
def pyRepr : JsonValue → String
  | .null => "None"
  | .bool true => "True"
  | .bool false => "False"
  | .num n => toString n
  | .str s => "\x27" ++ s ++ "\x27"
  | .arr xs => "[" ++ pyReprList xs ++ "]"
  | .obj fs => "\x7b" ++ pyReprFields fs ++ "\x7d"

/-- Helper for pyRepr: list elements joined by a comma and space. -/
def pyReprList : List JsonValue → String
  | [] => ""
  | [v] => pyRepr v
  | v :: vs => pyRepr v ++ ", " ++ pyReprList vs

/-- Helper for pyRepr: dict entries joined by a comma and space. -/
def pyReprFields : List (String × JsonValue) → String
  | [] => ""
  | [p] => "\x27" ++ p.1 ++ "\x27: " ++ pyRepr p.2
  | p :: ps => "\x27" ++ p.1 ++ "\x27: " ++ pyRepr p.2 ++ ", " ++ pyReprFields ps

end

/-- Python `str(v)` as applied by f-string interpolation (line 38): the
identity on strings, `repr` otherwise. -/
def pyStr : JsonValue → String
  | .str s => s
  | .null => pyRepr .null
  | .bool b => pyRepr (.bool b)
  | .num n => pyRepr (.num n)
  | .arr xs => pyRepr (.arr xs)
  | .obj fs => pyRepr (.obj fs)

/-- Python's whitespace predicate, the set `str.split()` splits on
(CPython's Py_UNICODE_ISSPACE): tab through carriage return (0x09 to 0x0D,
so including vertical tab and form feed), the separator controls 0x1C to
0x1F, space, NEL (0x85), no-break space (0xA0), Ogham space mark (0x1680),
the Unicode space separators 0x2000 to 0x200A, line separator (0x2028),
paragraph separator (0x2029), narrow no-break space (0x202F), medium
mathematical space (0x205F) and ideographic space (0x3000). -/
def pyIsSpace (c : Char) : Bool :=
  (0x09 ≤ c.toNat && c.toNat ≤ 0x0D) || (0x1C ≤ c.toNat && c.toNat ≤ 0x1F) ||
  c.toNat == 0x20 || c.toNat == 0x85 || c.toNat == 0xA0 || c.toNat == 0x1680 ||
  (0x2000 ≤ c.toNat && c.toNat ≤ 0x200A) || c.toNat == 0x2028 || c.toNat == 0x2029 ||
  c.toNat == 0x202F || c.toNat == 0x205F || c.toNat == 0x3000

/-- Python `str.split()` with no separator (lines 11 and 24): split on runs
of whitespace (the `pyIsSpace` set), discarding empty pieces.  First
argument: remaining input; second: the current word, reversed. -/
def splitWsAux : List Char → List Char → List (List Char)
  | [], acc => if acc.isEmpty then [] else [acc.reverse]
  | c :: cs, acc =>
    if pyIsSpace c then
      if acc.isEmpty then splitWsAux cs []
      else acc.reverse :: splitWsAux cs []
    else splitWsAux cs (c :: acc)

/-- Python split applied to a whole string. -/
def pySplit (s : String) : List String :=
  (splitWsAux s.data []).map String.mk

/-- Result of running a piece of the script: the lines printed to stdout
together with either a returned value or the message of an uncaught
exception. -/
inductive PyResult (α : Type) where
  | ok (out : List String) (val : α)
  | exn (out : List String) (msg : String)

/-- Environment model for `get_workspaces` (lines 7 to 18): the subprocess
either exits non-zero (`cmdError`, carrying `str(e)` of the
`CalledProcessError`), or exits zero with stdout that fails to decode
(`parseError`, carrying `str(e)` of the `JSONDecodeError`), or exits zero
with stdout decoding to a JSON value. -/
inductive QueryOutcome where
  | cmdError (detail : String)
  | parseError (detail : String)
  | value (v : JsonValue)

/-- The constant query command string of line 10. -/
def query_cmd : String := "hyprctl workspaces -j"

/-- Function `get_workspaces` (lines 7 to 18): returns the decoded JSON on success;
on `CalledProcessError` or `JSONDecodeError` prints a message and returns
the empty list.  Result: (lines printed, value returned). -/
def get_workspaces (q : QueryOutcome) : List String × JsonValue :=
  match q with
  | .cmdError e => (["Error getting workspaces: " ++ e], .arr [])
  | .parseError e => (["Error parsing workspaces: " ++ e], .arr [])
  | .value v => ([], v)

/-- The body of the f-string on line 38 for a single iteration variable
`ws`: evaluate `ws['id']`, `ws.get('name', 'Unnamed')`, `ws['windows']` in
order, then interpolate with `str`. -/
def format_workspace_line (ws : JsonValue) : Except String String := do
  let idv ← pySubscript ws "id"
  let namev ← pyGetMethod ws "name" (.str "Unnamed")
  let winv ← pySubscript ws "windows"
  pure ("  " ++ pyStr idv ++ ": " ++ pyStr namev ++ " (" ++ pyStr winv ++ " windows)")

/-- The print loop of lines 37 and 38: lines printed before any uncaught
exception, and the exception message if one is raised. -/
def print_loop : List JsonValue → List String × Option String
  | [] => ([], none)
  | ws :: rest =>
    match format_workspace_line ws with
    | .error e => ([], some e)
    | .ok line =>
      let (ls, ex) := print_loop rest
      (line :: ls, ex)

/-- Function `list_workspaces` (lines 29 to 38): fetch, print "No workspaces found"
when the result is falsy, otherwise print the header then one line per
element; exceptions raised by the loop (or by `iter`) are uncaught. -/
def list_workspaces (q : QueryOutcome) : PyResult Unit :=
  let p := get_workspaces q
  if pyFalsy p.2 then
    .ok (p.1 ++ ["No workspaces found"]) ()
  else
    match pyIter p.2 with
    | .error e => .exn (p.1 ++ ["Active Workspaces:"]) e
    | .ok items =>
      let r := print_loop items
      match r.2 with
      | none => .ok (p.1 ++ "Active Workspaces:" :: r.1) ()
      | some e => .exn (p.1 ++ "Active Workspaces:" :: r.1) e

/-- Function `create_workspace` (lines 20 to 27).  `dispatchExit` models the
dispatch subprocess: `none` for exit status zero, `some e` for a
`CalledProcessError` with `str(e) = e`.  Result: (the argv passed to
`subprocess.run`, i.e. `cmd.split()`, and the lines printed). -/
def create_workspace (name : String) (dispatchExit : Option String) : List String × List String :=
  let argv := pySplit ("hyprctl dispatch workspace name:" ++ name)
  match dispatchExit with
  | none => (argv, ["Created workspace: " ++ name])
  | some e => (argv, ["Error creating workspace: " ++ e])

/-- The positional `action` argument, constrained by argparse to the
choices `list` and `create` (line 42). -/
inductive Action where
  | list
  | create

/-- The external world a single run observes: the query outcome (used by
the `list` action) and the dispatch exit (used by `create`). -/
structure World where
  query : QueryOutcome
  dispatchExit : Option String

/-- Observable result of a whole process run: stdout lines, exit status,
whether termination was by uncaught exception (traceback, exit status 1),
and the argv of each external command invoked, in order. -/
structure ProcResult where
  out : List String
  exitCode : Nat
  crashed : Bool
  calls : List (List String)

/-- Function `main` (lines 40 to 53) after argparse: dispatch on the action; for
`create`, `if not args.name` (absent or empty) prints an error and exits
with status 1 before any dispatch call. -/
def main (action : Action) (name : Option String) (w : World) : ProcResult :=
  match action with
  | .list =>
    match list_workspaces w.query with
    | .ok out _ => ⟨out, 0, false, [pySplit query_cmd]⟩
    | .exn out _ => ⟨out, 1, true, [pySplit query_cmd]⟩
  | .create =>
    if (name.getD "").isEmpty then
      ⟨["Error: --name required for create action"], 1, false, []⟩
    else
      let p := create_workspace (name.getD "") w.dispatchExit
      ⟨p.2, 0, false, [p.1]⟩

/-- A workspace record of the spec's data model: `id` (integer, required),
`name` (string, optional, display default "Unnamed"), `windows` (integer,
required). -/
structure WorkspaceRecord where
  id : Int
  name : Option String
  windows : Int

/-- A decoded JSON value carries the workspace record `r`: it is a dict
whose "id" and "windows" keys hold the record's integers and whose "name"
key, when present, holds the record's string name (absent exactly when the
record has no name). -/
def RepresentsRecord (v : JsonValue) (r : WorkspaceRecord) : Prop :=
  match v with
  | .obj fs =>
    lookupLast fs "id" = some (.num r.id) ∧
    lookupLast fs "windows" = some (.num r.windows) ∧
    lookupLast fs "name" = r.name.map JsonValue.str
  | _ => False

/-- The line the spec prescribes for one workspace record. -/
def expectedLine (r : WorkspaceRecord) : String :=
  "  " ++ toString r.id ++ ": " ++ r.name.getD "Unnamed" ++ " (" ++ toString r.windows ++ " windows)"

theorem format_line_of_represents (v : JsonValue) (r : WorkspaceRecord)
    (h : RepresentsRecord v r) :
    format_workspace_line v = .ok (expectedLine r) := by
  cases v with
  | obj fs =>
    obtain ⟨hid, hwin, hname⟩ := h
    cases hn : r.name with
    | none =>
      rw [hn] at hname
      simp only [format_workspace_line, pySubscript, pyGetMethod, hid, hwin, hname,
        expectedLine, hn]
      rfl
    | some s =>
      rw [hn] at hname
      simp only [format_workspace_line, pySubscript, pyGetMethod, hid, hwin, hname,
        expectedLine, hn]
      rfl
  | null => exact absurd h (by simp [RepresentsRecord])
  | bool b => exact absurd h (by simp [RepresentsRecord])
  | num n => exact absurd h (by simp [RepresentsRecord])
  | str s => exact absurd h (by simp [RepresentsRecord])
  | arr xs => exact absurd h (by simp [RepresentsRecord])

theorem print_loop_of_represents (vs : List JsonValue) (rs : List WorkspaceRecord)
    (h : List.Forall₂ RepresentsRecord vs rs) :
    print_loop vs = (rs.map expectedLine, none) := by
  induction h with
  | nil => rfl
  | cons hvr _ ih =>
    rename_i v r vtl rtl _
    simp [print_loop, format_line_of_represents v r hvr, ih]

/-- C1 (amended): for every NONEMPTY valid JSON array of workspace records
(each element a dict with integer id and integer windows, and optionally a
string name), `list_workspaces` prints the header "Active Workspaces:"
followed by exactly one line per record, in the order of the array, each
formatted as "  id: name (windows windows)" with name defaulting to
"Unnamed" when absent. -/
theorem listWorkspaces_formats_nonempty_record_arrays
    (vs : List JsonValue) (rs : List WorkspaceRecord)
    (hne : vs ≠ []) (h : List.Forall₂ RepresentsRecord vs rs) :
    list_workspaces (.value (.arr vs)) = .ok ("Active Workspaces:" :: rs.map expectedLine) () := by
  have hfalsy : pyFalsy (JsonValue.arr vs) = false := by
    simp [pyFalsy, hne]
  simp only [list_workspaces, get_workspaces, hfalsy, pyIter,
    print_loop_of_represents vs rs h, Bool.false_eq_true, if_false, List.nil_append]

/-- Witness for C1 on the spec's own example array. -/
theorem listWorkspaces_formats_nonempty_record_arrays_witness :
    ([JsonValue.obj [("id", .num 0), ("name", .str "main"), ("windows", .num 3)],
      JsonValue.obj [("id", .num 1), ("windows", .num 0)]] ≠ ([] : List JsonValue)) ∧
    List.Forall₂ RepresentsRecord
      [JsonValue.obj [("id", .num 0), ("name", .str "main"), ("windows", .num 3)],
       JsonValue.obj [("id", .num 1), ("windows", .num 0)]]
      [⟨0, some "main", 3⟩, ⟨1, none, 0⟩] ∧
    list_workspaces (.value (.arr
      [JsonValue.obj [("id", .num 0), ("name", .str "main"), ("windows", .num 3)],
       JsonValue.obj [("id", .num 1), ("windows", .num 0)]]))
      = .ok ("Active Workspaces:" ::
          ([⟨0, some "main", 3⟩, ⟨1, none, 0⟩] : List WorkspaceRecord).map expectedLine) () :=
  ⟨fun hcontra => List.noConfusion hcontra,
   List.Forall₂.cons ⟨rfl, rfl, rfl⟩ (List.Forall₂.cons ⟨rfl, rfl, rfl⟩ List.Forall₂.nil),
   listWorkspaces_formats_nonempty_record_arrays _ _
     (fun hcontra => List.noConfusion hcontra)
     (List.Forall₂.cons ⟨rfl, rfl, rfl⟩ (List.Forall₂.cons ⟨rfl, rfl, rfl⟩ List.Forall₂.nil))⟩

/-- C1 counterexample: the empty array is a valid JSON array of workspace
records (vacuously), yet the script prints "No workspaces found" and never
prints the "Active Workspaces:" header the claim requires. -/
theorem listWorkspaces_empty_array_no_header :
    List.Forall₂ RepresentsRecord [] ([] : List WorkspaceRecord) ∧
    list_workspaces (.value (.arr [])) = .ok ["No workspaces found"] () ∧
    ("Active Workspaces:" :: ([] : List WorkspaceRecord).map expectedLine)
      ≠ ["No workspaces found"] :=
  ⟨List.Forall₂.nil, rfl, by decide⟩

/-- C2 (amended): on a non-zero exit of the query command, the run prints
the diagnostic "Error getting workspaces: " followed by the failure detail,
then additionally prints "No workspaces found"; the exit status is 0. -/
theorem listWorkspaces_query_failure_diagnostic_then_no_workspaces
    (e : String) (n d : Option String) :
    main .list n ⟨.cmdError e, d⟩
      = ⟨["Error getting workspaces: " ++ e, "No workspaces found"], 0, false,
         [pySplit query_cmd]⟩ := rfl

/-- C2 counterexample: after the query-failure diagnostic the script does
NOT stop printing: it goes on to print "No workspaces found", so the output
is not the single diagnostic line the claim requires. -/
theorem listWorkspaces_query_failure_extra_output :
    (main .list none ⟨.cmdError "boom", none⟩).out
      = ["Error getting workspaces: boom", "No workspaces found"] ∧
    (main .list none ⟨.cmdError "boom", none⟩).out
      ≠ ["Error getting workspaces: boom"] :=
  ⟨rfl, by decide⟩

/-- C3 (amended): query output that is invalid JSON is caught at the point
of the call, a message is printed, and the run terminates normally; but
valid JSON that is not the expected shape is NOT caught: for example the
array containing the number 1 raises an uncaught exception and aborts the
process. -/
theorem listWorkspaces_parse_error_caught_but_wrong_shape_uncaught :
    (∀ (e : String) (n d : Option String),
      main .list n ⟨.parseError e, d⟩
        = ⟨["Error parsing workspaces: " ++ e, "No workspaces found"], 0, false,
           [pySplit query_cmd]⟩) ∧
    main .list none ⟨.value (.arr [.num 1]), none⟩
      = ⟨["Active Workspaces:"], 1, true, [pySplit query_cmd]⟩ :=
  ⟨fun _ _ _ => rfl, rfl⟩

/-- C3 counterexample: the query output "[1]" is valid JSON but not an
array of objects with the required fields; `ws['id']` raises an uncaught
TypeError, so the process aborts instead of continuing. -/
theorem listWorkspaces_wrong_shape_crashes :
    (main .list none ⟨.value (.arr [.num 1]), none⟩).crashed = true ∧
    (main .list none ⟨.value (.arr [.num 1]), none⟩).exitCode = 1 :=
  ⟨rfl, rfl⟩

/-- C4 (amended): `create` with an absent or empty name exits with status
1; external-command failures and JSON parse failures of the query exit with
status 0; but it is not the only non-zero-exit condition: a `list` run
whose query returns valid JSON of an unexpected shape aborts with an
uncaught exception and exit status 1. -/
theorem exit_status_policy_amended :
    (∀ w : World, (main .create none w).exitCode = 1) ∧
    (∀ (w : World) (n : String),
      (main .create (some n) w).exitCode = if n.isEmpty then 1 else 0) ∧
    (∀ (n : Option String) (e : String) (d : Option String),
      (main .list n ⟨.cmdError e, d⟩).exitCode = 0) ∧
    (∀ (n : Option String) (e : String) (d : Option String),
      (main .list n ⟨.parseError e, d⟩).exitCode = 0) ∧
    (main .list none ⟨.value (.obj [("a", .null)]), none⟩).exitCode = 1 := by
  refine ⟨fun w => rfl, fun w n => ?_, fun _ _ _ => rfl, fun _ _ _ => rfl, rfl⟩
  cases hn : n.isEmpty with
  | true => simp [main, hn]
  | false => simp [main, hn]

/-- C4 counterexample: a `list` invocation (not `create` without a name)
whose query returns the valid JSON object with one key terminates with a
non-zero exit status, via an uncaught exception. -/
theorem exitCode_nonzero_without_create :
    (main .list none ⟨.value (.obj [("a", JsonValue.null)]), none⟩).exitCode = 1 ∧
    (main .list none ⟨.value (.obj [("a", JsonValue.null)]), none⟩).crashed = true :=
  ⟨rfl, rfl⟩

/-- C7: a query yielding the empty JSON array makes the run print exactly
the line "No workspaces found" and nothing else, with exit status 0. -/
theorem listWorkspaces_empty_array_prints_no_workspaces (n d : Option String) :
    main .list n ⟨.value (.arr []), d⟩
      = ⟨["No workspaces found"], 0, false, [pySplit query_cmd]⟩ := rfl

/-- C8: query stdout that is not valid JSON makes the run print the
parse-error diagnostic and terminate normally (no uncaught exception, exit
status 0). -/
theorem listWorkspaces_parse_error_diagnostic_normal_termination
    (e : String) (n d : Option String) :
    main .list n ⟨.parseError e, d⟩
      = ⟨["Error parsing workspaces: " ++ e, "No workspaces found"], 0, false,
         [pySplit query_cmd]⟩ := rfl

/-- C10: the optional name argument has no effect on the `list` action:
two runs observing the same external world produce identical results. -/
theorem list_action_ignores_name (w : World) (n₁ n₂ : Option String) :
    main .list n₁ w = main .list n₂ w := rfl

/-- C5: `create` with an absent or empty name prints the error line, exits
with status 1 and invokes no external command; with a non-empty name it
runs `create_workspace` on that name (its dispatch call and its printed
lines become the run's observable behaviour). -/
theorem create_requires_nonempty_name (w : World) (n : String) (h : n ≠ "") :
    main .create none w = ⟨["Error: --name required for create action"], 1, false, []⟩ ∧
    main .create (some "") w = ⟨["Error: --name required for create action"], 1, false, []⟩ ∧
    main .create (some n) w
      = ⟨(create_workspace n w.dispatchExit).2, 0, false,
         [(create_workspace n w.dispatchExit).1]⟩ := by
  refine ⟨rfl, rfl, ?_⟩
  have hne : n.isEmpty = false := by
    cases hn : n.isEmpty with
    | true => exact absurd ((String.isEmpty_iff n).mp hn) h
    | false => rfl
  simp [main, hne]

/-- Witness for C5 at the name "coding". -/
theorem create_requires_nonempty_name_witness :
    "coding" ≠ "" ∧
    (main .create none ⟨.value (.arr []), none⟩
        = ⟨["Error: --name required for create action"], 1, false, []⟩ ∧
     main .create (some "") ⟨.value (.arr []), none⟩
        = ⟨["Error: --name required for create action"], 1, false, []⟩ ∧
     main .create (some "coding") ⟨.value (.arr []), none⟩
        = ⟨(create_workspace "coding" none).2, 0, false,
           [(create_workspace "coding" none).1]⟩) :=
  ⟨by decide, create_requires_nonempty_name ⟨.value (.arr []), none⟩ "coding" (by decide)⟩

/-- C9: `create` with a non-empty name whose dispatch command exits with
status zero prints the confirmation line "Created workspace: " followed by
the name. -/
theorem create_success_prints_confirmation (n : String) (q : QueryOutcome) (h : n ≠ "") :
    "Created workspace: " ++ n ∈ (main .create (some n) ⟨q, none⟩).out := by
  have hne : n.isEmpty = false := by
    cases hn : n.isEmpty with
    | true => exact absurd ((String.isEmpty_iff n).mp hn) h
    | false => rfl
  simp [main, hne, create_workspace]

/-- Witness for C9 at the name "coding" from the spec's scenario. -/
theorem create_success_prints_confirmation_witness :
    "coding" ≠ "" ∧
    "Created workspace: " ++ "coding"
      ∈ (main .create (some "coding") ⟨.value (.arr []), none⟩).out :=
  ⟨by decide, create_success_prints_confirmation "coding" (.value (.arr [])) (by decide)⟩

theorem splitWsAux_all_non_ws (cs : List Char) : ∀ acc : List Char,
    (∀ c ∈ cs, pyIsSpace c = false) → acc.reverse ++ cs ≠ [] →
    splitWsAux cs acc = [acc.reverse ++ cs] := by
  induction cs with
  | nil =>
    intro acc _ hne
    have hacc : acc ≠ [] := by
      intro hcontra
      exact hne (by simp [hcontra])
    simp [splitWsAux, hacc]
  | cons c cs ih =>
    intro acc h hne
    have hc : pyIsSpace c = false := h c (List.mem_cons_self c cs)
    have hrec := ih (c :: acc) (fun d hd => h d (List.mem_cons_of_mem c hd)) (by simp)
    simp only [splitWsAux, hc, Bool.false_eq_true, if_false, hrec]
    simp

theorem splitWsAux_word_then_space (xs : List Char) : ∀ (acc ys : List Char),
    (∀ c ∈ xs, pyIsSpace c = false) → acc.reverse ++ xs ≠ [] →
    splitWsAux (xs ++ ' ' :: ys) acc = (acc.reverse ++ xs) :: splitWsAux ys [] := by
  induction xs with
  | nil =>
    intro acc ys _ hne
    have hacc : acc ≠ [] := by
      intro hcontra
      exact hne (by simp [hcontra])
    have hsp : pyIsSpace ' ' = true := by decide
    simp [splitWsAux, hacc, hsp]
  | cons c xs ih =>
    intro acc ys h hne
    have hc : pyIsSpace c = false := h c (List.mem_cons_self c xs)
    have hrec := ih (c :: acc) ys (fun d hd => h d (List.mem_cons_of_mem c hd)) (by simp)
    simp only [List.cons_append, splitWsAux, hc, Bool.false_eq_true, if_false, List.append_eq]
    rw [hrec]
    simp

/-- C6 (amended): for every non-empty name containing no character of
Python's whitespace set (`pyIsSpace`), the dispatch subprocess is invoked
exactly once with the argv
["hyprctl", "dispatch", "workspace", "name:" ++ name], i.e. the name is
carried as the single final argument. -/
theorem create_workspace_argv_no_whitespace (name : String) (d : Option String)
    (h1 : name ≠ "") (h2 : ∀ c ∈ name.data, pyIsSpace c = false) :
    (create_workspace name d).1 = ["hyprctl", "dispatch", "workspace", "name:" ++ name] := by
  have hargv : (create_workspace name d).1
      = pySplit ("hyprctl dispatch workspace name:" ++ name) := by
    cases d <;> rfl
  have hdata : ("hyprctl dispatch workspace name:" ++ name).data
      = "hyprctl".data ++ ' ' :: ("dispatch".data ++ ' ' ::
          ("workspace".data ++ ' ' :: ("name:".data ++ name.data))) := by
    rw [String.data_append,
      show "hyprctl dispatch workspace name:".data
          = "hyprctl".data ++ ' ' :: ("dispatch".data ++ ' ' ::
              ("workspace".data ++ ' ' :: "name:".data)) from by decide]
    simp only [List.append_assoc, List.cons_append]
  have hpre : ∀ c ∈ "name:".data, pyIsSpace c = false := by decide
  rw [hargv]
  unfold pySplit
  rw [hdata]
  rw [splitWsAux_word_then_space "hyprctl".data [] _ (by decide) (by decide)]
  rw [splitWsAux_word_then_space "dispatch".data [] _ (by decide) (by decide)]
  rw [splitWsAux_word_then_space "workspace".data [] _ (by decide) (by decide)]
  rw [splitWsAux_all_non_ws ("name:".data ++ name.data) []
    (fun c hc => (List.mem_append.mp hc).elim (hpre c) (h2 c))
    (fun hcontra => List.noConfusion hcontra)]
  rfl

/-- Witness for C6 (amended) at the name "coding". -/
theorem create_workspace_argv_no_whitespace_witness :
    "coding" ≠ "" ∧ (∀ c ∈ "coding".data, pyIsSpace c = false) ∧
    (create_workspace "coding" none).1
      = ["hyprctl", "dispatch", "workspace", "name:" ++ "coding"] :=
  ⟨by decide, by decide,
   create_workspace_argv_no_whitespace "coding" none (by decide) (by decide)⟩

/-- C6 counterexample: for the non-empty name "a b" the script's
`cmd.split()` breaks the name at the space, so the dispatch argv carries
"name:a" and "b" as two arguments, not the single argument "name:a b". -/
theorem create_workspace_argv_splits_on_whitespace :
    (create_workspace "a b" none).1 = ["hyprctl", "dispatch", "workspace", "name:a", "b"] ∧
    (create_workspace "a b" none).1 ≠ ["hyprctl", "dispatch", "workspace", "name:a b"] :=
  ⟨rfl, by decide⟩

end WorkspaceManager
